import Mathlib

/-!
Verification development for the WAF Bedrock analyzer (Go sources: the
Slack-event Lambda handler, the Athena query executor `runAthenaQuery`,
the SQL rewriter `preprocessSqlQuery`, the result formatters, and the
three in-process dedup caches).  Each Go function used by a claim is
shallowly embedded as an executable Lean definition translated directly
from the source; strings are Lean `String`s manipulated as `List Char`
(the sources only handle ASCII payloads, where Go's byte-oriented
`strings` functions agree with character-oriented ones).
-/

namespace WafAnalyzer

/-! ## Go string primitives -/

/-- The whitespace class of Go's `unicode.IsSpace` restricted to the
characters it recognises below U+0100 (used by `strings.TrimSpace`). -/
def goUniSpace (c : Char) : Bool :=
  c = ' ' || c = '\t' || c = '\n' || c = '\x0b' || c = '\x0c' || c = '\r' ||
  c = '\x85' || c = '\xa0'

/-- The RE2 character class `\s` = `[\t\n\f\r ]` used by the rewriter's
regular expressions. -/
def reSpace (c : Char) : Bool :=
  c = '\t' || c = '\n' || c = '\x0c' || c = '\r' || c = ' '

/-- Go `strings.TrimSpace` on a character list. -/
def trimSpaceL (s : List Char) : List Char :=
  ((s.dropWhile goUniSpace).reverse.dropWhile goUniSpace).reverse

/-- `isPfxOf p s` decides whether `p` starts `s` (Go `strings.HasPrefix`). -/
def isPfxOf : List Char → List Char → Bool
  | [], _ => true
  | _ :: _, [] => false
  | a :: as, b :: bs => a = b && isPfxOf as bs

/-- Go `strings.Contains` on character lists (empty needle is found). -/
def containsSub : List Char → List Char → Bool
  | hay, sub =>
    match hay with
    | [] => sub.isEmpty
    | _ :: rest => isPfxOf sub hay || containsSub rest sub

/-- Go `strings.Contains` on `String`. -/
def containsStr (hay sub : String) : Bool :=
  containsSub hay.data sub.data

/-- Go `strings.ToUpper` (agrees with Go on ASCII, the only data the
handler feeds it). -/
def goToUpper (s : String) : String :=
  ⟨s.data.map Char.toUpper⟩

/-- Go `strings.Replace(s, old, new, 1)`: replace the first occurrence. -/
def replaceFirst : List Char → List Char → List Char → List Char
  | [], old, new => if old.isEmpty then new else []
  | c :: cs, old, new =>
    if isPfxOf old (c :: cs) then new ++ (c :: cs).drop old.length
    else c :: replaceFirst cs old new

/-- Go `strings.Replace(s, old, new, -1)`: replace all occurrences,
scanning left to right without overlap.  `fuel` bounds the recursion;
callers pass the string length, which suffices because every step
consumes at least one character (the sources never pass an empty
`old`). -/
def replaceAllSub : Nat → List Char → List Char → List Char → List Char
  | 0, s, _, _ => s
  | _, [], _, _ => []
  | fuel + 1, c :: cs, old, new =>
    if isPfxOf old (c :: cs) && !old.isEmpty then
      new ++ replaceAllSub fuel ((c :: cs).drop old.length) old new
    else c :: replaceAllSub fuel cs old new

/-- First line of a string: Go `strings.Split(s, "\n")[0]`. -/
def firstLine (s : List Char) : List Char :=
  s.takeWhile (fun c => c != '\n')

/-- Worker for `splitOnSub`: `acc` holds the current piece reversed. -/
def splitOnSubGo (sep : List Char) : Nat → List Char → List Char → List (List Char)
  | 0, acc, s => [acc.reverse ++ s]
  | _, acc, [] => [acc.reverse]
  | fuel + 1, acc, c :: cs =>
    if isPfxOf sep (c :: cs) && !sep.isEmpty then
      acc.reverse :: splitOnSubGo sep fuel [] ((c :: cs).drop sep.length)
    else splitOnSubGo sep fuel (c :: acc) cs

/-- Go `strings.Split(s, sep)` for a non-empty separator: the pieces
between non-overlapping left-to-right occurrences.  `fuel` bounds the
scan; callers pass the string length. -/
def splitOnSub (s sep : List Char) (fuel : Nat) : List (List Char) :=
  splitOnSubGo sep fuel [] s

/-- Go `strconv.Atoi` success predicate (`isNumeric` in utils.go):
an optional sign followed by at least one ASCII digit.  (Overflow
cannot occur at the four-character lengths the rewriter tests.) -/
def isNumericL (s : List Char) : Bool :=
  match s with
  | [] => false
  | c :: rest =>
    if c = '+' || c = '-' then !rest.isEmpty && rest.all Char.isDigit
    else (c :: rest).all Char.isDigit

/-! ## Gregorian calendar arithmetic for `time.Parse` / 9-hour shift

`preprocessSqlQuery` parses `BETWEEN` literals with the Go layout
`2006-01-02 15:04:05`, subtracts nine hours (JST→UTC) and reformats.
We model an instant as seconds since 0000-01-01 00:00:00; the model is
exact for every timestamp at or after 0000-01-01 09:00:00 (earlier
instants would underflow the `Nat` subtraction, a region no test input
touches). -/

def isLeap (y : Nat) : Bool :=
  (y % 4 = 0 && y % 100 ≠ 0) || y % 400 = 0

def daysInMonth (y m : Nat) : Nat :=
  if m = 2 then (if isLeap y then 29 else 28)
  else if m = 4 || m = 6 || m = 9 || m = 11 then 30
  else 31

/-- Days in months `1 .. m-1` of year `y`. -/
def daysBeforeMonth (y m : Nat) : Nat :=
  (List.range (m - 1)).foldl (fun acc i => acc + daysInMonth y (i + 1)) 0

/-- Number of leap years in `[0, y)` (year 0 is a leap year). -/
def leapsBefore (y : Nat) : Nat :=
  (y + 3) / 4 - (y + 99) / 100 + (y + 399) / 400

/-- Days from 0000-01-01 to `y`-01-01. -/
def daysBeforeYear (y : Nat) : Nat :=
  365 * y + leapsBefore y

/-- Seconds since 0000-01-01 00:00:00 of a civil date-time. -/
def toSec (y mo d h mi s : Nat) : Nat :=
  (daysBeforeYear y + daysBeforeMonth y mo + (d - 1)) * 86400 +
    h * 3600 + mi * 60 + s

/-- Recover the year containing absolute day `days`: start from the
underestimate `days / 366` and walk forward (the gap is at most a few
dozen years for any representable date, well below the fuel). -/
def yearFromDaysGo (fuel y days : Nat) : Nat :=
  match fuel with
  | 0 => y
  | f + 1 =>
    if daysBeforeYear (y + 1) ≤ days then yearFromDaysGo f (y + 1) days else y

def yearFromDays (days : Nat) : Nat :=
  yearFromDaysGo 400 (days / 366) days

/-- Month and day (1-based) from a 0-based day-of-year. -/
def monthFromDoy (y : Nat) : Nat → Nat → Nat × Nat
  | 0, doy => (12, doy + 1)
  | fuel + 1, doy =>
    let m := 13 - (fuel + 1)
    if doy < daysInMonth y m then (m, doy + 1)
    else monthFromDoy y fuel (doy - daysInMonth y m)

/-- Civil date-time from seconds since 0000-01-01 00:00:00. -/
def fromSec (t : Nat) : Nat × Nat × Nat × Nat × Nat × Nat :=
  let days := t / 86400
  let rem := t % 86400
  let y := yearFromDays days
  let doy := days - daysBeforeYear y
  let (mo, d) := monthFromDoy y 12 doy
  (y, mo, d, rem / 3600, rem % 3600 / 60, rem % 60)

/-- Zero-pad a number to `width` digits (Go's `2006` / `01` layout
fields). -/
def padNum (n width : Nat) : List Char :=
  let s := (Nat.repr n).data
  List.replicate (width - s.length) '0' ++ s

/-- Go `t.Format("2006-01-02 15:04:05")`. -/
def formatTS (t : Nat) : List Char :=
  let (y, mo, d, h, mi, s) := fromSec t
  padNum y 4 ++ '-' :: padNum mo 2 ++ '-' :: padNum d 2 ++
    ' ' :: padNum h 2 ++ ':' :: padNum mi 2 ++ ':' :: padNum s 2

def digitVal (c : Char) : Nat := c.toNat - '0'.toNat

/-- Go `time.Parse("2006-01-02 15:04:05", s)`: the entire string must
match the layout exactly, every field zero-padded, and every field must
be in range (month 1–12, day valid for the month, hour ≤ 23, minute and
second ≤ 59).  Returns seconds since 0000-01-01 00:00:00. -/
def parseTS (s : List Char) : Option Nat :=
  match s with
  | [y1, y2, y3, y4, '-', m1, m2, '-', d1, d2, ' ',
     h1, h2, ':', n1, n2, ':', s1, s2] =>
    if [y1, y2, y3, y4, m1, m2, d1, d2, h1, h2, n1, n2, s1, s2].all
        Char.isDigit then
      let y := ((digitVal y1 * 10 + digitVal y2) * 10 + digitVal y3) * 10 +
        digitVal y4
      let mo := digitVal m1 * 10 + digitVal m2
      let d := digitVal d1 * 10 + digitVal d2
      let h := digitVal h1 * 10 + digitVal h2
      let mi := digitVal n1 * 10 + digitVal n2
      let sec := digitVal s1 * 10 + digitVal s2
      if 1 ≤ mo && mo ≤ 12 && 1 ≤ d && d ≤ daysInMonth y mo &&
          h ≤ 23 && mi ≤ 59 && sec ≤ 59 then
        some (toSec y mo d h mi sec)
      else none
    else none
  | _ => none

/-- The JST→UTC step applied to each captured `BETWEEN` literal: skipped
when the literal mentions `+` or `Z`; otherwise, if the literal parses
with the Go layout, nine hours are subtracted and it is reformatted,
else it is passed through unchanged. -/
def convertJst (d : List Char) : List Char :=
  if containsSub d ['+'] || containsSub d ['Z'] then d
  else
    match parseTS d with
    | some t => formatTS (t - 32400)
    | none => d

/-! ## The rewriter's regular expressions

`preprocessSqlQuery` uses two RE2 patterns,
`time_dt\s+BETWEEN\s+'([^']+)'\s+AND\s+'([^']+)'` and
`BETWEEN\s+'([^']+)'\s+AND\s+'([^']+)'`.  In both, every quantified
piece (`\s+`, `[^']+`) is followed by a character it can never match
(`'`, `B`, `A`, or a letter), so the greedy maximal-munch scan below
finds exactly the leftmost matches RE2 finds, with the same captures. -/

/-- Consume an exact literal. -/
def eatLit : List Char → List Char → Option (List Char)
  | [], s => some s
  | _ :: _, [] => none
  | c :: cs, x :: xs => if c = x then eatLit cs xs else none

/-- Consume `\s+` (at least one RE2 whitespace character, maximal). -/
def eatSpaces1 : List Char → Option (List Char)
  | [] => none
  | c :: cs => if reSpace c then some (cs.dropWhile reSpace) else none

/-- Consume `[^']+` (at least one non-quote character, maximal),
returning the capture and the remainder. -/
def eatNonQuote1 (s : List Char) : Option (List Char × List Char) :=
  let cap := s.takeWhile (fun c => c != '\'')
  if cap.isEmpty then none else some (cap, s.drop cap.length)

/-- Match `BETWEEN\s+'([^']+)'\s+AND\s+'([^']+)'` at the head of `s`,
returning the two captures and the remainder after the match. -/
def matchBetweenAt (s : List Char) : Option (List Char × List Char × List Char) := do
  let s ← eatLit "BETWEEN".data s
  let s ← eatSpaces1 s
  let s ← eatLit ['\''] s
  let (d1, s) ← eatNonQuote1 s
  let s ← eatLit ['\''] s
  let s ← eatSpaces1 s
  let s ← eatLit "AND".data s
  let s ← eatSpaces1 s
  let s ← eatLit ['\''] s
  let (d2, s) ← eatNonQuote1 s
  let s ← eatLit ['\''] s
  some (d1, d2, s)

/-- Match `time_dt\s+BETWEEN\s+'([^']+)'\s+AND\s+'([^']+)'` at the head
of `s`. -/
def matchTimeDtAt (s : List Char) : Option (List Char × List Char × List Char) := do
  let s ← eatLit "time_dt".data s
  let s ← eatSpaces1 s
  matchBetweenAt s

/-- `regexp.MatchString` for the `time_dt` pattern: does a match start
anywhere?  `fuel` bounds the scan; callers pass the string length. -/
def existsTimeDt : Nat → List Char → Bool
  | 0, _ => false
  | _, [] => false
  | fuel + 1, c :: cs =>
    (matchTimeDtAt (c :: cs)).isSome || existsTimeDt fuel cs

/-- `re.ReplaceAllStringFunc` for the `time_dt` pattern: each match is
replaced by
`time_dt BETWEEN TIMESTAMP '<jst d1>' AND TIMESTAMP '<jst d2>'` and the
scan resumes after the match.  `fuel` bounds the scan (string length
suffices: every step consumes at least one character). -/
def replaceTimeDtScan : Nat → List Char → List Char
  | 0, s => s
  | _, [] => []
  | fuel + 1, c :: cs =>
    match matchTimeDtAt (c :: cs) with
    | some (d1, d2, rest) =>
      "time_dt BETWEEN TIMESTAMP '".data ++ convertJst d1 ++
        "' AND TIMESTAMP '".data ++ convertJst d2 ++ '\'' ::
        replaceTimeDtScan fuel rest
    | none => c :: replaceTimeDtScan fuel cs

/-- The `MatchString`-guarded `ReplaceAllStringFunc` block of
`preprocessSqlQuery`. -/
def applyTimeDt (q : List Char) : List Char :=
  if existsTimeDt q.length q then replaceTimeDtScan q.length q else q

/-- `re.FindAllStringSubmatch(query, -1)` for the plain `BETWEEN`
pattern: all leftmost non-overlapping matches, as capture pairs. -/
def findAllBetween : Nat → List Char → List (List Char × List Char)
  | 0, _ => []
  | _, [] => []
  | fuel + 1, c :: cs =>
    match matchBetweenAt (c :: cs) with
    | some (d1, d2, rest) => (d1, d2) :: findAllBetween fuel rest
    | none => findAllBetween fuel cs

/-- The year-only expansion loop of `preprocessSqlQuery`: for each
match (found on the pre-loop string), a 4-digit numeric lower bound has
its first textual occurrence `'YYYY'` replaced by
`TIMESTAMP 'YYYY-01-01 00:00:00'`, and a 4-digit numeric upper bound by
`TIMESTAMP 'YYYY-12-31 23:59:59'`. -/
def expandYears (q : List Char) : List Char :=
  (findAllBetween q.length q).foldl
    (fun acc p =>
      let acc :=
        if p.1.length = 4 && isNumericL p.1 then
          replaceFirst acc ('\'' :: p.1 ++ ['\''])
            ("TIMESTAMP '".data ++ p.1 ++ "-01-01 00:00:00'".data)
        else acc
      if p.2.length = 4 && isNumericL p.2 then
        replaceFirst acc ('\'' :: p.2 ++ ['\''])
          ("TIMESTAMP '".data ++ p.2 ++ "-12-31 23:59:59'".data)
      else acc)
    q

def glueDbMarker : List Char := "amazon_security_lake_glue_db".data
def tblAp : List Char := "amazon_security_lake_table_ap_northeast_1_waf_2_0".data
def dbAp : List Char := "amazon_security_lake_glue_db_ap_northeast_1".data
def tblUs : List Char := "amazon_security_lake_table_us_east_1_waf_2_0".data
def dbUs : List Char := "amazon_security_lake_glue_db_us_east_1".data

/-- The table-qualification block of `preprocessSqlQuery`: when no
`amazon_security_lake_glue_db` catalog name appears, each bare table
name whose catalog is also absent is replaced (all occurrences) by its
fully qualified `catalog.table` form. -/
def tableQualify (q : List Char) : List Char :=
  if containsSub q glueDbMarker then q
  else
    let q :=
      if containsSub q tblAp && !containsSub q dbAp then
        replaceAllSub q.length q tblAp (dbAp ++ '.' :: tblAp)
      else q
    if containsSub q tblUs && !containsSub q dbUs then
      replaceAllSub q.length q tblUs (dbUs ++ '.' :: tblUs)
    else q

/-- `preprocessSqlQuery`: trim, qualify table names, rewrite `time_dt
BETWEEN` literals (JST→UTC and `TIMESTAMP` typing), then expand 4-digit
year bounds of any remaining plain `BETWEEN` clause. -/
def preprocessSqlQuery (query : String) : String :=
  ⟨expandYears (applyTimeDt (tableQualify (trimSpaceL query.data)))⟩

/-! ## Region detection and the deny list -/

/-- `getQueryRegion` (utils.go): `us-east-1` when the SQL references a
us-east-1 catalog/table, the keyword `frontend`, or `global/webacl`;
default `ap-northeast-1`. -/
def getQueryRegion (q : String) : String :=
  if containsStr q "amazon_security_lake_glue_db_us_east_1" ||
      containsStr q "amazon_security_lake_table_us_east_1" ||
      containsStr q "waf_2_0_us_east_1" then "us-east-1"
  else if containsStr q "frontend" then "us-east-1"
  else if containsStr q "global/webacl" then "us-east-1"
  else "ap-northeast-1"

/-- The deny-list guard at the top of `runAthenaQuery`. -/
def sqlDenied (q : String) : Bool :=
  containsStr (goToUpper q) "DROP" || containsStr (goToUpper q) "DELETE" ||
  containsStr (goToUpper q) "INSERT" || containsStr (goToUpper q) "UPDATE"

/-! ## `runAthenaQuery`

The Athena backend is abstracted as: the submission outcome, the status
returned to the `i`-th 2-second poll tick, whether `StopQueryExecution`
fails, and the result-fetch outcome.  With a 2-second ticker inside a
45-second deadline the polling goroutine performs at most 22 ticks
(ticks fire at 2 s, 4 s, …, 44 s).  The `select` race in the source is
modelled deterministically with the scheduling the code is written for:
if some tick observes a terminal state or a status error the `doneCh`
branch runs, otherwise the deadline fires first and the
`queryContext.Done()` branch runs.  `StopQueryExecution`'s outcome is
carried in the backend but never read by the model, exactly as the code
only logs it. -/

/-- One Athena result row (`athena.Row`): cells are `*string`. -/
structure Row where
  data : List (Option String)
deriving DecidableEq, Repr

/-- Outcome of one `GetQueryExecution` call. -/
inductive PollStep where
  | fail (msg : String)
  | state (s : String) (reason : Option String)
deriving DecidableEq, Repr

structure AthenaBackend where
  /-- `StartQueryExecution`: `some qid` or a submission error. -/
  startQid : Option String
  /-- the `%v` detail of a submission error -/
  startErr : String
  /-- outcome of the `i`-th poll attempt (1-based) -/
  poll : Nat → PollStep
  /-- whether `StopQueryExecution` fails (logged only, never read) -/
  stopFails : Bool
  /-- `GetQueryResults`: `some (rows, moreData)` or an error -/
  fetch : Option (List Row × Bool)
  /-- the `%v` detail of a fetch error -/
  fetchErr : String

/-- The tuple `runAthenaQuery` returns, plus counters for the backend
calls it made (`StartQueryExecution`, `StopQueryExecution`). -/
structure RunOutcome where
  qid : String
  rows : List Row
  errMsg : String
  region : String
  startCalls : Nat
  stopCalls : Nat
deriving DecidableEq, Repr

def isTerminal (p : PollStep) : Bool :=
  match p with
  | .fail _ => true
  | .state s _ => s = "SUCCEEDED" || s = "FAILED" || s = "CANCELLED"

/-- First loop-ending poll outcome among attempts `i, i+1, …` (at most
`r` of them): a status error or a terminal state ends the loop, any
other state keeps polling. -/
def findTerminal (poll : Nat → PollStep) : Nat → Nat → Option PollStep
  | _, 0 => none
  | i, r + 1 =>
    if isTerminal (poll i) then some (poll i) else findTerminal poll (i + 1) r

/-- Maximum poll attempts inside the 45-second budget at one tick per
2 seconds. -/
def maxPollAttempts : Nat := 22

/-- Shallow embedding of `runAthenaQuery`. -/
def runAthenaQuery (b : AthenaBackend) (query : String) : RunOutcome :=
  if sqlDenied query then
    ⟨"", [], "Invalid SQL command detected", "", 0, 0⟩
  else
    let q := preprocessSqlQuery query
    let region := getQueryRegion q
    match b.startQid with
    | none => ⟨"", [], "Athena start error: " ++ b.startErr, region, 1, 0⟩
    | some qid =>
      match findTerminal b.poll 1 maxPollAttempts with
      | none =>
        -- deadline fired: cancel (best effort) and report the timeout
        ⟨qid, [], "Query timed out (45 seconds elapsed). Execution aborted.",
          region, 1, 1⟩
      | some (.fail m) =>
        ⟨qid, [], "Failed to get query status: " ++ m, region, 1, 0⟩
      | some (.state s reason) =>
        if s = "SUCCEEDED" then
          match b.fetch with
          | none =>
            ⟨qid, [], "Failed to get query results: " ++ b.fetchErr, region, 1, 0⟩
          | some (rows, _) => ⟨qid, rows, "", region, 1, 0⟩
        else if s = "FAILED" then
          ⟨qid, [], "Athena query failed: " ++ reason.getD "Unknown error",
            region, 1, 0⟩
        else ⟨qid, [], "Athena query was cancelled", region, 1, 0⟩

/-! ## `formatAthenaResults` -/

/-- The header scan: iterate the first row's cells with their index;
named columns (no `_col` prefix) become headers with their indices,
`_col…` names are set aside. -/
def scanHeaders : List (Option String) → Nat → List String × List Nat × List String
  | [], _ => ([], [], [])
  | c :: rest, i =>
    let (h, idx, ch) := scanHeaders rest (i + 1)
    match c with
    | some name =>
      if !isPfxOf "_col".data name.data then (name :: h, i :: idx, ch)
      else (h, idx, name :: ch)
    | none => (h, idx, ch)

/-- Fallback: `_col…` columns except `_col0`. -/
def scanColsAnon : List (Option String) → Nat → List String × List Nat
  | [], _ => ([], [])
  | c :: rest, i =>
    let (h, idx) := scanColsAnon rest (i + 1)
    match c with
    | some name =>
      if name ≠ "_col0" && isPfxOf "_col".data name.data then
        (name :: h, i :: idx)
      else (h, idx)
    | none => (h, idx)

/-- Last resort: every non-nil cell. -/
def scanColsAll : List (Option String) → Nat → List String × List Nat
  | [], _ => ([], [])
  | c :: rest, i =>
    let (h, idx) := scanColsAll rest (i + 1)
    match c with
    | some name => (name :: h, i :: idx)
    | none => (h, idx)

/-- One row's contribution to the column widths: a non-nil in-range
cell raises the width of its column to its length (nil and out-of-range
cells contribute nothing, matching the source). -/
def updWidths (row : List (Option String)) : List Nat → List Nat → List Nat
  | i :: is, w :: ws =>
    let w' :=
      match row.get? i with
      | some (some v) => max w v.length
      | _ => w
    w' :: updWidths row is ws
  | _, ws => ws

/-- The cell text of one rendered row: in-range nil cells render as
`NULL`, out-of-range cells as `N/A`. -/
def rowValues (row : List (Option String)) (idxs : List Nat) : List String :=
  idxs.map fun i =>
    match row.get? i with
    | some (some v) => v
    | some none => "NULL"
    | none => "N/A"

/-- Go `fmt.Sprintf("%-<n>s", s)`: left-justify, pad with spaces to
width `n`, never truncate. -/
def padR (s : String) (n : Nat) : String :=
  s ++ ⟨List.replicate (n - s.length) ' '⟩

/-- Render one table line: each cell padded to its width plus two. -/
def renderCells : List String → List Nat → String
  | v :: vs, w :: ws => padR v (w + 2) ++ renderCells vs ws
  | _, _ => ""

/-- Shallow embedding of `formatAthenaResults` (display mode, cap 20
rows including the header row). -/
def formatAthenaResults (rows : List Row) : String :=
  match rows with
  | [] => "No results found"
  | row0 :: _ =>
    let (h1, idx1, colH) := scanHeaders row0.data 0
    let (h2, idx2) :=
      if h1.isEmpty && !colH.isEmpty then scanColsAnon row0.data 0
      else (h1, idx1)
    let (headers, colIndices) :=
      if h2.isEmpty then scanColsAll row0.data 0 else (h2, idx2)
    if headers.isEmpty then "No displayable columns found"
    else
      let maxRows := min rows.length 20
      let body := (rows.drop 1).take (maxRows - 1)
      let widths :=
        body.foldl (fun ws r => updWidths r.data colIndices ws)
          (headers.map String.length)
      let sep := String.join (widths.map fun w => ⟨List.replicate (w + 2) '-'⟩)
      let bodyText := String.join (body.map fun r =>
        renderCells (rowValues r.data colIndices) widths ++ "\n")
      let note :=
        if rows.length > 20 then "...(Results limited to 20 rows)\n" else ""
      "```\n" ++ renderCells headers widths ++ "\n" ++ sep ++ "\n" ++
        bodyText ++ note ++ "```\n"

/-! ## The dedup caches

Go maps from key to timestamp are modelled as association lists with
unique keys; timestamps are seconds.  Insertion replaces any existing
binding, so list length equals map size. -/

def lookupTime : List (String × Nat) → String → Option Nat
  | [], _ => none
  | (k', t) :: rest, k => if k' = k then some t else lookupTime rest k

def insertTime (c : List (String × Nat)) (k : String) (t : Nat) :
    List (String × Nat) :=
  (k, t) :: c.filter fun p => p.1 != k

/-- The record-and-evict step of the recent-query guard (runs when the
call was not suppressed): record `(key, now)`; if the map then holds
more than 200 entries, drop entries older than 10 minutes, and if more
than 150 remain, clear everything but the triggering key. -/
def recentRecord (c : List (String × Nat)) (key : String) (now : Nat) :
    Bool × List (String × Nat) :=
  let c1 := insertTime c key now
  let c2 :=
    if 200 < c1.length then
      let c1' := c1.filter fun p => decide (now - p.2 ≤ 600)
      if 150 < c1'.length then [(key, now)] else c1'
    else c1
  (true, c2)

/-- The recent-query dedup guard of the handler (window 5 s): a key seen
less than 5 seconds ago suppresses the call without touching the cache;
otherwise the call proceeds and is recorded. -/
def shouldProcessRecent (c : List (String × Nat)) (key : String) (now : Nat) :
    Bool × List (String × Nat) :=
  match lookupTime c key with
  | some t => if now - t < 5 then (false, c) else recentRecord c key now
  | none => recentRecord c key now

/-- The processed-events guard of the handler (presence only): a known
key is a duplicate; a fresh key is recorded, and if the cache then holds
more than 100 entries it is cleared down to the triggering key. -/
def processedInsert (c : List String) (key : String) : Bool × List String :=
  if c.contains key then (false, c)
  else if 100 < c.length + 1 then (true, [key])
  else (true, key :: c)

/-- The handler's inbound-event dedup block: it runs only when
`event_id` is non-empty, with key `event_id + "_" + text + "_" +
channel`; an empty `event_id` skips the guard entirely. -/
def eventDedup (c : List String) (eventID text channel : String) :
    Bool × List String :=
  if eventID ≠ "" then processedInsert c (eventID ++ "_" ++ text ++ "_" ++ channel)
  else (true, c)

/-! ## `postToSlack` -/

/-- The message signature: the full text, or, for texts longer than 50
bytes that contain `*result:*`, the literal `WAF result:` plus the rest
of that line. -/
def msgSignature (msg : String) : String :=
  if 50 < msg.length && containsStr msg "*result:*" then
    match splitOnSub msg.data "*result:*".data msg.data.length with
    | _ :: part1 :: _ => "WAF result:" ++ ⟨firstLine part1⟩
    | _ => msg
  else msg

/-- Outcome of the HTTP call to the Slack API, when one is attempted. -/
inductive SendOutcome where
  | httpErr (m : String)
  | apiErr (m : String)
  | ok
deriving DecidableEq, Repr

/-- What `postToSlack` produced: the returned error (`none` = nil), the
cache afterwards, and whether an HTTP send was attempted. -/
structure SlackResult where
  err : Option String
  cache : List (String × Nat)
  sendAttempted : Bool
deriving DecidableEq, Repr

/-- The record-then-send tail of `postToSlack`: the signature is
recorded in the cache (and stale entries evicted past 50 entries)
*before* the token check and the HTTP call. -/
def postToSlackSend (cache : List (String × Nat)) (msgHash : String)
    (token : String) (send : SendOutcome) (now : Nat) : SlackResult :=
  let c1 := insertTime cache msgHash now
  let c2 :=
    if 50 < c1.length then c1.filter fun p => decide (now - p.2 ≤ 600)
    else c1
  if token = "" then
    ⟨some "Slack token is empty. Unable to send message to Slack.", c2, false⟩
  else
    match send with
    | .httpErr m => ⟨some m, c2, true⟩
    | .apiErr m => ⟨some ("Slack API error: " ++ m), c2, true⟩
    | .ok => ⟨none, c2, true⟩

/-- Shallow embedding of `postToSlack`: a signature seen less than 3
minutes ago returns nil immediately with no send attempt; otherwise the
signature is recorded and the send attempted. -/
def postToSlack (cache : List (String × Nat)) (token : String)
    (send : SendOutcome) (channel msg : String) (now : Nat) : SlackResult :=
  let msgHash := channel ++ ":" ++ msgSignature msg
  match lookupTime cache msgHash with
  | some t =>
    if now - t < 180 then ⟨none, cache, false⟩
    else postToSlackSend cache msgHash token send now
  | none => postToSlackSend cache msgHash token send now

/-! ## The handler's error report -/

/-- The Athena console deep link the handler builds for an execution
id. -/
def consoleUrlFor (queryRegion qid : String) : String :=
  if queryRegion = "us-east-1" then
    "https://us-east-1.console.aws.amazon.com/athena/home?region=us-east-1#/query-editor/history/" ++ qid
  else
    "https://ap-northeast-1.console.aws.amazon.com/athena/home?region=ap-northeast-1#/query-editor/history/" ++ qid

/-- The chat message the handler posts when `runAthenaQuery` reported an
error: region detected from the *generated* SQL, the error text, the
generated SQL in a code block, and the console link.  `sql` is the raw
Bedrock output — the handler never sees the rewritten query. -/
def buildErrorMessage (sql qid errMsg : String) : String :=
  let queryRegion := getQueryRegion sql
  "Query failed (region: " ++ queryRegion ++ "): " ++ errMsg ++ "\n\n" ++
    "Executed SQL:\n```\n" ++ sql ++ "\n```\n\n" ++
    "Athena Console: " ++ consoleUrlFor queryRegion qid

/-! ## Concrete inputs used by individual claims -/

/-- A header row plus 25 data rows `r1 … r25`, the shape of the
ResultFormatter display-mode test in the spec. -/
def rows26 : List Row :=
  ⟨[some "c"]⟩ :: (List.range 25).map fun i => ⟨[some ("r" ++ Nat.repr (i + 1))]⟩

/-- A recent-query cache holding 200 distinct keys, all of age zero. -/
def bigRecent : List (String × Nat) :=
  (List.range 200).map fun i => ("k" ++ Nat.repr i, 0)

/-- A processed-events cache holding 100 distinct keys. -/
def bigEvents : List String :=
  (List.range 100).map fun i => "e" ++ Nat.repr i

/-- A backend whose query never leaves the RUNNING state (used by the
C2 witness). -/
def runningBackend : AthenaBackend :=
  ⟨some "qid-1", "", fun _ => .state "RUNNING" none, true, none, ""⟩

/-! ## Helper lemmas -/

theorem lookupTime_head (k : String) (t : Nat) (rest : List (String × Nat)) :
    lookupTime ((k, t) :: rest) k = some t := by
  simp [lookupTime]

theorem findTerminal_eq_none (poll : Nat → PollStep) :
    ∀ r i, (∀ j, i ≤ j → j < i + r → isTerminal (poll j) = false) →
      findTerminal poll i r = none := by
  intro r
  induction r with
  | zero => intro i _; rfl
  | succ r ih =>
    intro i h
    have h0 : isTerminal (poll i) = false := h i le_rfl (by omega)
    rw [findTerminal, h0]
    simp only [Bool.false_eq_true, if_false]
    exact ih (i + 1) fun j hj1 hj2 => h j (by omega) (by omega)

/-! ## Claims -/

/-- C2: when no poll tick inside the 45-second budget observes a
terminal state or a status error, `runAthenaQuery` returns the
execution id, no rows, the elapsed-timeout message and the detected
region, and it calls `StopQueryExecution` exactly once.  The backend
`b` is arbitrary — in particular its `stopFails` flag — so a failing
cancellation call leaves the outcome unchanged. -/
theorem runAthenaQuery_timeout (b : AthenaBackend) (query qid : String)
    (hdeny : sqlDenied query = false)
    (hstart : b.startQid = some qid)
    (hpoll : ∀ i, 1 ≤ i → i ≤ 22 → isTerminal (b.poll i) = false) :
    runAthenaQuery b query =
      ⟨qid, [], "Query timed out (45 seconds elapsed). Execution aborted.",
        getQueryRegion (preprocessSqlQuery query), 1, 1⟩ := by
  have hnone : findTerminal b.poll 1 22 = none :=
    findTerminal_eq_none b.poll 22 1 fun j h1 h2 => hpoll j h1 (by omega)
  simp [runAthenaQuery, hdeny, hstart, maxPollAttempts, hnone]

/-- C2 witness: a backend that always reports RUNNING times out with one
cancellation call. -/
theorem runAthenaQuery_timeout_witness :
    runAthenaQuery runningBackend "SELECT 1" =
      ⟨"qid-1", [], "Query timed out (45 seconds elapsed). Execution aborted.",
        "ap-northeast-1", 1, 1⟩ := by
  have h := runAthenaQuery_timeout runningBackend "SELECT 1" "qid-1"
    (by decide) rfl (fun i _ _ => rfl)
  rw [h]
  rfl

/-- C3: any query whose upper-cased text contains `DROP`, `DELETE`,
`INSERT` or `UPDATE` as a substring is rejected with the error
`Invalid SQL command detected`, with no submission (zero
`StartQueryExecution` calls) and no execution id, for every backend. -/
theorem runAthenaQuery_denylist (b : AthenaBackend) (q : String)
    (h : containsStr (goToUpper q) "DROP" = true ∨
      containsStr (goToUpper q) "DELETE" = true ∨
      containsStr (goToUpper q) "INSERT" = true ∨
      containsStr (goToUpper q) "UPDATE" = true) :
    runAthenaQuery b q = ⟨"", [], "Invalid SQL command detected", "", 0, 0⟩ := by
  have hd : sqlDenied q = true := by
    unfold sqlDenied
    rcases h with h | h | h | h <;> simp [h]
  simp [runAthenaQuery, hd]

/-- C3 witness: the lower-case `drop table x` is rejected before
submission. -/
theorem runAthenaQuery_denylist_witness :
    containsStr (goToUpper "drop table x") "DROP" = true ∧
    runAthenaQuery runningBackend "drop table x" =
      ⟨"", [], "Invalid SQL command detected", "", 0, 0⟩ :=
  ⟨by decide, runAthenaQuery_denylist runningBackend "drop table x"
    (Or.inl (by decide))⟩

theorem lookupTime_insertTime (c : List (String × Nat)) (k : String) (t : Nat) :
    lookupTime (insertTime c k t) k = some t := by
  simp [insertTime, lookupTime]

theorem filter_ne_of_lookup_none (c : List (String × Nat)) (key : String)
    (h : lookupTime c key = none) : (c.filter fun p => p.1 != key) = c := by
  induction c with
  | nil => rfl
  | cons p rest ih =>
    obtain ⟨k', t⟩ := p
    by_cases hk : k' = key
    · simp [lookupTime, hk] at h
    · rw [lookupTime] at h
      simp only [hk, if_false] at h
      simp [List.filter_cons, hk, ih h]

/-- After a non-suppressed recent-query call the cache maps the key to
`now`, whichever eviction branch ran. -/
theorem recentRecord_lookup (c : List (String × Nat)) (key : String) (now : Nat) :
    (recentRecord c key now).1 = true ∧
    lookupTime (recentRecord c key now).2 key = some now := by
  refine ⟨rfl, ?_⟩
  unfold recentRecord insertTime
  dsimp only
  split
  · split
    · exact lookupTime_head key now []
    · rw [List.filter_cons_of_pos (by simp)]
      exact lookupTime_head key now _
  · exact lookupTime_head key now _

/-- C4: the recent-query guard (key = channel + ":" + text, 5-second
window): a fresh key is processed and recorded at `now`; the same key
again within 5 seconds is suppressed with the cache untouched; once 5
seconds have elapsed it is processed and re-recorded; when recording
pushes the cache past 200 entries while every entry is younger than the
10-minute horizon, the cache hard-clears down to the triggering key;
and the processed-events guard hard-clears the same way past 100
entries. -/
theorem recentQueries_dedup (c : List (String × Nat)) (key : String)
    (t now : Nat) (ec : List String) (ekey : String) :
    (lookupTime c key = none →
      (shouldProcessRecent c key now).1 = true ∧
      lookupTime (shouldProcessRecent c key now).2 key = some now) ∧
    (lookupTime c key = some t → now - t < 5 →
      shouldProcessRecent c key now = (false, c)) ∧
    (lookupTime c key = some t → 5 ≤ now - t →
      (shouldProcessRecent c key now).1 = true ∧
      lookupTime (shouldProcessRecent c key now).2 key = some now) ∧
    (lookupTime c key = none → 200 < c.length + 1 →
      (∀ p ∈ c, now - p.2 ≤ 600) →
      (shouldProcessRecent c key now).2 = [(key, now)]) ∧
    (ec.contains ekey = false → 100 < ec.length + 1 →
      processedInsert ec ekey = (true, [ekey])) := by
  refine ⟨?_, ?_, ?_, ?_, ?_⟩
  · intro h
    rw [shouldProcessRecent, h]
    exact recentRecord_lookup c key now
  · intro h hlt
    rw [shouldProcessRecent, h]
    simp [hlt]
  · intro h hge
    have hne : ¬ now - t < 5 := by omega
    simp only [shouldProcessRecent, h, hne, if_false]
    exact recentRecord_lookup c key now
  · intro h hlen hage
    rw [shouldProcessRecent, h]
    unfold recentRecord insertTime
    rw [filter_ne_of_lookup_none c key h]
    dsimp only
    rw [if_pos (by simp only [List.length_cons]; omega)]
    have hall : (((key, now) :: c).filter fun p => decide (now - p.2 ≤ 600)) =
        (key, now) :: c := by
      rw [List.filter_eq_self]
      intro a ha
      rcases List.mem_cons.mp ha with ha | ha
      · simp [ha]
      · simpa using hage a ha
    rw [hall, if_pos (by simp only [List.length_cons]; omega)]
  · intro h hlen
    have hmem : ekey ∉ ec := by simpa using h
    simp [processedInsert, hmem, hlen]

set_option maxRecDepth 8000 in
/-- C4 witness: the four window behaviours at concrete times, the
hard-clear of a 200-entry all-young cache, and the processed-events
hard-clear at 100 entries. -/
theorem recentQueries_dedup_witness :
    ((shouldProcessRecent [] "C1:q" 100).1 = true ∧
      lookupTime (shouldProcessRecent [] "C1:q" 100).2 "C1:q" = some 100) ∧
    shouldProcessRecent [("C1:q", 100)] "C1:q" 103 = (false, [("C1:q", 100)]) ∧
    ((shouldProcessRecent [("C1:q", 100)] "C1:q" 106).1 = true ∧
      lookupTime (shouldProcessRecent [("C1:q", 100)] "C1:q" 106).2 "C1:q" =
        some 106) ∧
    (shouldProcessRecent bigRecent "x:q" 100).2 = [("x:q", 100)] ∧
    processedInsert bigEvents "e_t_c" = (true, ["e_t_c"]) := by
  refine ⟨?_, ?_, ?_, ?_, ?_⟩
  · exact (recentQueries_dedup [] "C1:q" 0 100 [] "").1 rfl
  · exact (recentQueries_dedup [("C1:q", 100)] "C1:q" 100 103 [] "").2.1 rfl
      (by decide)
  · exact (recentQueries_dedup [("C1:q", 100)] "C1:q" 100 106 [] "").2.2.1 rfl
      (by decide)
  · exact (recentQueries_dedup bigRecent "x:q" 0 100 [] "").2.2.2.1
      (by decide) (by decide) (by decide)
  · exact (recentQueries_dedup [] "" 0 0 bigEvents "e_t_c").2.2.2.2
      (by decide) (by decide)

/-- The cache `postToSlackSend` leaves behind does not depend on the
token or the send outcome. -/
theorem postToSlackSend_cache (cache : List (String × Nat)) (msgHash : String)
    (token : String) (send : SendOutcome) (now : Nat) :
    (postToSlackSend cache msgHash token send now).cache =
      (if 50 < (insertTime cache msgHash now).length then
        (insertTime cache msgHash now).filter fun p => decide (now - p.2 ≤ 600)
      else insertTime cache msgHash now) := by
  unfold postToSlackSend
  dsimp only
  split
  · rfl
  · cases send <;> rfl

theorem postToSlackSend_lookup (cache : List (String × Nat)) (msgHash : String)
    (token : String) (send : SendOutcome) (now : Nat) :
    lookupTime (postToSlackSend cache msgHash token send now).cache msgHash =
      some now := by
  rw [postToSlackSend_cache]
  split
  · unfold insertTime
    rw [List.filter_cons_of_pos (by simp)]
    exact lookupTime_head msgHash now _
  · exact lookupTime_insertTime cache msgHash now

theorem postToSlackSend_err_isSome (cache : List (String × Nat))
    (msgHash token : String) (send : SendOutcome) (now : Nat)
    (hfail : token = "" ∨ (∃ m, send = .apiErr m) ∨ (∃ m, send = .httpErr m)) :
    (postToSlackSend cache msgHash token send now).err.isSome = true := by
  unfold postToSlackSend
  dsimp only
  split
  · rfl
  · rename_i htok
    rcases hfail with h | ⟨m, h⟩ | ⟨m, h⟩
    · exact absurd h htok
    · subst h; rfl
    · subst h; rfl

/-- C9: `postToSlack` records the (channel, signature) key before the
token check and the HTTP call, so a failed send (empty token, HTTP
error or Slack API error) still populates the outbound cache; a second
call with the same channel and message within 3 minutes then returns
nil immediately, leaves the cache unchanged and attempts no send. -/
theorem postToSlack_records_before_send (cache : List (String × Nat))
    (token : String) (send : SendOutcome) (channel msg : String)
    (now now' : Nat)
    (hfresh : lookupTime cache (channel ++ ":" ++ msgSignature msg) = none)
    (hfail : token = "" ∨ (∃ m, send = .apiErr m) ∨ (∃ m, send = .httpErr m))
    (hle : now ≤ now') (hwin : now' - now < 180) :
    (postToSlack cache token send channel msg now).err.isSome = true ∧
    (token = "" →
      (postToSlack cache token send channel msg now).sendAttempted = false) ∧
    lookupTime (postToSlack cache token send channel msg now).cache
      (channel ++ ":" ++ msgSignature msg) = some now ∧
    postToSlack (postToSlack cache token send channel msg now).cache token send
      channel msg now' =
      ⟨none, (postToSlack cache token send channel msg now).cache, false⟩ := by
  have hcall : postToSlack cache token send channel msg now =
      postToSlackSend cache (channel ++ ":" ++ msgSignature msg) token send now := by
    rw [postToSlack, hfresh]
  refine ⟨?_, ?_, ?_, ?_⟩
  · rw [hcall]
    exact postToSlackSend_err_isSome _ _ _ _ _ hfail
  · intro htok
    rw [hcall]
    unfold postToSlackSend
    dsimp only
    rw [if_pos htok]
  · rw [hcall]
    exact postToSlackSend_lookup _ _ _ _ _
  · have hlk : lookupTime (postToSlack cache token send channel msg now).cache
        (channel ++ ":" ++ msgSignature msg) = some now := by
      rw [hcall]; exact postToSlackSend_lookup _ _ _ _ _
    rw [postToSlack, hlk]
    dsimp only
    rw [if_pos hwin]

/-- C9 witness: with an empty token the first send fails but is
recorded, and the identical message 100 seconds later is suppressed
without a send attempt. -/
theorem postToSlack_records_witness :
    (postToSlack [] "" .ok "C" "hello" 0).err.isSome = true ∧
    (postToSlack [] "" .ok "C" "hello" 0).sendAttempted = false ∧
    lookupTime (postToSlack [] "" .ok "C" "hello" 0).cache
      ("C" ++ ":" ++ msgSignature "hello") = some 0 ∧
    postToSlack (postToSlack [] "" .ok "C" "hello" 0).cache "" .ok "C" "hello"
      100 = ⟨none, (postToSlack [] "" .ok "C" "hello" 0).cache, false⟩ := by
  obtain ⟨h1, h2, h3, h4⟩ := postToSlack_records_before_send [] "" .ok "C"
    "hello" 0 100 (by decide) (Or.inl rfl) (by decide) (by decide)
  exact ⟨h1, h2 rfl, h3, h4⟩

set_option maxRecDepth 20000 in
/-- C1 counterexample: `preprocessSqlQuery` is not idempotent.  For the
query `time_dt BETWEEN 'p time_dt BETWEEN ' AND ' AND 'z'` the first
pass rewrites the clause to
`time_dt BETWEEN TIMESTAMP 'p time_dt BETWEEN ' AND TIMESTAMP ' AND 'z'`,
inside which the `time_dt` pattern matches again (the quote closing the
first literal acts as an opening quote), so a second pass inserts
another `TIMESTAMP` and changes the text. -/
theorem preprocess_not_idempotent :
    preprocessSqlQuery
        (preprocessSqlQuery
          "time_dt BETWEEN 'p time_dt BETWEEN ' AND ' AND 'z'") ≠
      preprocessSqlQuery
        "time_dt BETWEEN 'p time_dt BETWEEN ' AND ' AND 'z'" := by
  decide

set_option maxRecDepth 40000 in
/-- C1 (amended): `preprocessSqlQuery` is idempotent on the spec's
sampled inputs — a `time_dt BETWEEN` timestamp clause, an unqualified
table name combined with a year-only `BETWEEN`, and a plain year-only
`BETWEEN` — i.e. names qualified and timestamp literals typed by the
first pass are left unchanged by a second pass on such queries; the
universal statement fails on adversarial quote content
(`preprocess_not_idempotent`). -/
theorem preprocess_idempotent_on_sampled :
    preprocessSqlQuery
        (preprocessSqlQuery
          "SELECT * FROM t WHERE time_dt BETWEEN '2024-01-01 10:00:00' AND '2024-01-01 12:00:00'") =
      preprocessSqlQuery
        "SELECT * FROM t WHERE time_dt BETWEEN '2024-01-01 10:00:00' AND '2024-01-01 12:00:00'" ∧
    preprocessSqlQuery
        (preprocessSqlQuery
          "SELECT * FROM amazon_security_lake_table_ap_northeast_1_waf_2_0 WHERE x BETWEEN '2020' AND '2021'") =
      preprocessSqlQuery
        "SELECT * FROM amazon_security_lake_table_ap_northeast_1_waf_2_0 WHERE x BETWEEN '2020' AND '2021'" ∧
    preprocessSqlQuery
        (preprocessSqlQuery "SELECT * FROM t WHERE x BETWEEN '2020' AND '2021'") =
      preprocessSqlQuery "SELECT * FROM t WHERE x BETWEEN '2020' AND '2021'" := by
  refine ⟨by decide, by decide, by decide⟩

set_option maxRecDepth 20000 in
/-- C5 counterexample: with a header row and 25 data rows the display
formatter emits the truncation note and renders `r19` but not `r20`:
only 19 data rows appear, not the claimed 20 (the 20-row cap counts the
header row). -/
theorem formatAthenaResults_caps_at_19 :
    containsStr (formatAthenaResults rows26) "...(Results limited to 20 rows)" =
      true ∧
    containsStr (formatAthenaResults rows26) "r19" = true ∧
    containsStr (formatAthenaResults rows26) "r20" = false := by
  refine ⟨by decide, by decide, by decide⟩

set_option maxRecDepth 20000 in
/-- C5 (amended): in display mode a header row plus 25 data rows
renders as a two-space-padded, left-justified fixed-width table inside
a literal code block, with exactly 19 data rows (`r1` … `r19`; the
20-row cap includes the header row) followed by the trailing truncation
note. -/
theorem formatAthenaResults_display :
    formatAthenaResults rows26 =
      "```\nc    \n-----\nr1   \nr2   \nr3   \nr4   \nr5   \nr6   \nr7   \nr8   \nr9   \nr10  \nr11  \nr12  \nr13  \nr14  \nr15  \nr16  \nr17  \nr18  \nr19  \n...(Results limited to 20 rows)\n```\n" := by
  decide

set_option maxRecDepth 20000 in
/-- C6: a `time_dt BETWEEN` clause with two offset-free timestamp
literals has both interpreted as UTC+9 local time, shifted back nine
hours and wrapped as typed literals — `'2024-01-01 10:00:00'` and
`'2024-01-01 12:00:00'` become `TIMESTAMP '2024-01-01 01:00:00'` and
`TIMESTAMP '2024-01-01 03:00:00'`; the conversion is per-literal, so an
unparseable literal is left as-is (though still wrapped) while the
parseable one is still converted. -/
theorem timestamp_conversion :
    preprocessSqlQuery
        "SELECT * FROM t WHERE time_dt BETWEEN '2024-01-01 10:00:00' AND '2024-01-01 12:00:00'" =
      "SELECT * FROM t WHERE time_dt BETWEEN TIMESTAMP '2024-01-01 01:00:00' AND TIMESTAMP '2024-01-01 03:00:00'" ∧
    preprocessSqlQuery
        "SELECT * FROM t WHERE time_dt BETWEEN 'foo' AND '2024-01-01 12:00:00'" =
      "SELECT * FROM t WHERE time_dt BETWEEN TIMESTAMP 'foo' AND TIMESTAMP '2024-01-01 03:00:00'" := by
  refine ⟨by decide, by decide⟩

set_option maxRecDepth 20000 in
/-- C7 counterexample: in the clause
`time_dt BETWEEN '2020' AND '2021'` the 4-digit bounds are *not*
expanded: the timestamp pass rewrites the clause to
`TIMESTAMP '2020' … TIMESTAMP '2021'` first, after which the
year-expansion pattern no longer matches — refuting "for every BETWEEN
clause". -/
theorem year_expansion_misses_time_dt :
    preprocessSqlQuery "SELECT * FROM t WHERE time_dt BETWEEN '2020' AND '2021'" =
      "SELECT * FROM t WHERE time_dt BETWEEN TIMESTAMP '2020' AND TIMESTAMP '2021'" ∧
    containsStr
      (preprocessSqlQuery
        "SELECT * FROM t WHERE time_dt BETWEEN '2020' AND '2021'")
      "2020-01-01 00:00:00" = false := by
  refine ⟨by decide, by decide⟩

set_option maxRecDepth 20000 in
/-- C7 (amended): for a `BETWEEN` clause that survives the timestamp
pass unrewritten (any clause not matching the `time_dt` pattern), a
4-digit numeric lower bound is expanded to a typed
`YYYY-01-01 00:00:00` and an upper bound to `YYYY-12-31 23:59:59`, and
only the first textual occurrence of each literal in the whole query is
replaced, positionally rather than clause-scoped. -/
theorem year_expansion :
    preprocessSqlQuery "SELECT * FROM t WHERE x BETWEEN '2020' AND '2021'" =
      "SELECT * FROM t WHERE x BETWEEN TIMESTAMP '2020-01-01 00:00:00' AND TIMESTAMP '2021-12-31 23:59:59'" ∧
    preprocessSqlQuery "SELECT '2020' AS y FROM t WHERE x BETWEEN '2020' AND '2021'" =
      "SELECT TIMESTAMP '2020-01-01 00:00:00' AS y FROM t WHERE x BETWEEN '2020' AND TIMESTAMP '2021-12-31 23:59:59'" := by
  refine ⟨by decide, by decide⟩

theorem data_append (a b : String) : (a ++ b).data = a.data ++ b.data := rfl

theorem infixAppendLeft {x m : List Char} (l : List Char) (h : x <:+: m) :
    x <:+: l ++ m := by
  obtain ⟨s, t, rfl⟩ := h
  exact ⟨l ++ s, t, by simp⟩

theorem infix_left_part (x suf : List Char) : x <:+: x ++ suf :=
  ⟨[], suf, by simp⟩

theorem infix_right_part (pre x : List Char) : x <:+: pre ++ x :=
  ⟨pre, [], by simp⟩

set_option maxRecDepth 20000 in
/-- C8 counterexample: for a generated SQL that the rewriter changes
(an unqualified table name and a year-only `BETWEEN`), the posted error
message contains the raw generated SQL but not the rewritten SQL that
`runAthenaQuery` actually executed, refuting the claim that the message
shows the QueryRewriter's output. -/
theorem errorMessage_shows_raw_sql :
    preprocessSqlQuery
        "SELECT * FROM amazon_security_lake_table_ap_northeast_1_waf_2_0 WHERE x BETWEEN '2020' AND '2021'" ≠
      "SELECT * FROM amazon_security_lake_table_ap_northeast_1_waf_2_0 WHERE x BETWEEN '2020' AND '2021'" ∧
    containsStr
      (buildErrorMessage
        "SELECT * FROM amazon_security_lake_table_ap_northeast_1_waf_2_0 WHERE x BETWEEN '2020' AND '2021'"
        "qid-9" "boom")
      "SELECT * FROM amazon_security_lake_table_ap_northeast_1_waf_2_0 WHERE x BETWEEN '2020' AND '2021'" = true ∧
    containsStr
      (buildErrorMessage
        "SELECT * FROM amazon_security_lake_table_ap_northeast_1_waf_2_0 WHERE x BETWEEN '2020' AND '2021'"
        "qid-9" "boom")
      (preprocessSqlQuery
        "SELECT * FROM amazon_security_lake_table_ap_northeast_1_waf_2_0 WHERE x BETWEEN '2020' AND '2021'") =
      false := by
  refine ⟨by decide, by decide, by decide⟩


/-- C8 (amended): for every failure, the posted chat message contains
the detected region, the error detail, the *raw generated* SQL exactly
as handed to `runAthenaQuery` (the rewritten query never leaves the
executor), and the console deep link, which embeds the execution id
when one exists. -/
theorem errorMessage_contents (sql qid errMsg : String) :
    (getQueryRegion sql).data <:+: (buildErrorMessage sql qid errMsg).data ∧
    errMsg.data <:+: (buildErrorMessage sql qid errMsg).data ∧
    sql.data <:+: (buildErrorMessage sql qid errMsg).data ∧
    (consoleUrlFor (getQueryRegion sql) qid).data <:+:
      (buildErrorMessage sql qid errMsg).data ∧
    qid.data <:+: (consoleUrlFor (getQueryRegion sql) qid).data := by
  have hm : (buildErrorMessage sql qid errMsg).data =
      "Query failed (region: ".data ++ ((getQueryRegion sql).data ++
        ("): ".data ++ (errMsg.data ++ ("\n\n".data ++
        ("Executed SQL:\n```\n".data ++ (sql.data ++ ("\n```\n\n".data ++
        ("Athena Console: ".data ++
        (consoleUrlFor (getQueryRegion sql) qid).data)))))))) := by
    simp only [buildErrorMessage, data_append, List.append_assoc]
  refine ⟨?_, ?_, ?_, ?_, ?_⟩
  · rw [hm]
    exact infixAppendLeft _ (infix_left_part _ _)
  · rw [hm]
    exact infixAppendLeft _ (infixAppendLeft _ (infixAppendLeft _
      (infix_left_part _ _)))
  · rw [hm]
    exact infixAppendLeft _ (infixAppendLeft _ (infixAppendLeft _
      (infixAppendLeft _ (infixAppendLeft _ (infixAppendLeft _
        (infix_left_part _ _))))))
  · rw [hm]
    exact infixAppendLeft _ (infixAppendLeft _ (infixAppendLeft _
      (infixAppendLeft _ (infixAppendLeft _ (infixAppendLeft _
        (infixAppendLeft _ (infixAppendLeft _ (infix_right_part _ _))))))))
  · unfold consoleUrlFor
    split
    · rw [data_append]
      exact infix_right_part _ _
    · rw [data_append]
      exact infix_right_part _ _

/-- C10: an inbound event whose `event_id` is empty skips the
processed-events guard entirely: it is processed (never suppressed) and
the cache is left untouched, so every redelivery is fully processed. -/
theorem eventDedup_empty_id_skips (c : List String) (text channel : String) :
    eventDedup c "" text channel = (true, c) := by
  simp [eventDedup]

end WafAnalyzer
